import Mathlib

/-!
Verification of the FleetPy pooling objective-function factory
(`src/fleetctrl/pooling/objectives.py`).

The module builds, from a configuration dictionary, one of a closed catalog
of scoring functions for vehicle plans.  We embed the data model and each
strategy closure shallowly: Python floats become `ℚ`, optional planned times
become `Option ℚ`, a Python exception during evaluation becomes
`Except.error`, and `10 ** np.ceil(np.log10 x)` becomes
`(10 : ℚ) ^ Int.clog 10 x`.
-/

namespace FleetPy

/-- Opaque location handle, comparable for equality only. -/
abbrev Pos := ℕ

/-- Result of `routing_engine.return_travel_costs_1to1`: index `[1]` is the
travel time, index `[2]` is the distance (index `[0]`, the path, is unused). -/
structure TravelCost where
  tt : ℚ
  dist : ℚ
deriving DecidableEq

/-- The routing oracle `return_travel_costs_1to1`. -/
abbrev RoutingEngine := Pos → Pos → TravelCost

/-- A `PlanStop` as read by the objective functions. -/
structure PlanStop where
  pos : Pos
  /-- `get_planned_arrival_and_departure_time()[0]`; `none` = unresolved. -/
  planned_arrival : Option ℚ
  /-- `get_planned_arrival_and_departure_time()[1]`; `none` = unresolved. -/
  planned_departure : Option ℚ
  /-- `is_locked_end()` -/
  locked_end : Bool
  /-- `is_fixed_stop()` -/
  fixed_stop : Bool
  /-- `get_list_boarding_rids()` -/
  boarding_rids : List ℕ
  /-- `get_list_alighting_rids()` -/
  alighting_rids : List ℕ
deriving DecidableEq

/-- An entry of `veh_plan.pax_info`: request id with its
`(pickup time, drop-off time)` pair (`boarding_info_list[0]`/`[1]`). -/
structure PaxEntry where
  rid : ℕ
  board : ℚ
  deboard : ℚ
deriving DecidableEq

/-- A `VehiclePlan` as read by the objective functions. -/
structure VehiclePlan where
  list_plan_stops : List PlanStop
  pax_info : List PaxEntry
deriving DecidableEq

/-- The `get_current_offer()` record; `vid` is `offer.get("vid")`. -/
structure Offer where
  vid : Option ℕ
deriving DecidableEq

/-- A `PlanRequest` as read by the objective functions.  The comparison
`prq.status < G_PRQS_LOCKED` against the external constant is embedded as
the precomputed boolean `status_lt_locked`. -/
structure PlanRequest where
  rq_time : ℚ
  /-- `get_reservation_flag()` -/
  reservation_flag : Bool
  /-- `get_o_stop_info()[1]`: earliest pickup time -/
  ept : ℚ
  walking_time_end : ℚ
  pu_time : Option ℚ
  /-- `is_locked()` -/
  locked : Bool
  /-- `status < G_PRQS_LOCKED` -/
  status_lt_locked : Bool
  /-- `get_soft_o_stop_info()[1]` -/
  t_pu_earliest : ℚ
  /-- `get_soft_o_stop_info()[2]` -/
  t_pu_latest : ℚ
  current_offer : Option Offer
  init_direct_tt : ℚ
deriving DecidableEq

/-- A `SimulationVehicle` as read by the objective functions. -/
structure SimulationVehicle where
  pos : Pos
  distance_cost : ℚ
  vid : ℕ
deriving DecidableEq

/-- `rq_dict`; per the spec invariant every referenced id exists, so the
lookup is embedded as a total map. -/
abbrev RqDict := ℕ → PlanRequest

def LARGE_INT : ℚ := 1000000
def MAX_DISTANCE : ℚ := 100 * 1000
def MAX_DELAY : ℚ := 2 * 60 * 60
def MAX_BASE_DISTANCE_COST : ℚ := 100 / 1000

/-- `10 ** np.ceil(np.log10 x)`: the reward-magnitude rounding rule. -/
def pow10ceil (x : ℚ) : ℚ := (10 : ℚ) ^ Int.clog 10 x

/-- The configuration dictionary `vr_control_func_dict`.  A `none` field is
an absent key: reading it with `[...]` fails the build, reading it with
`.get(...)` yields the default. -/
structure VrControlFuncDict where
  func_key : String
  vot : Option ℚ := none
  dc : Option ℚ := none
  uw : Option ℚ := none
  dtw : Option ℚ := none
  rrw : Option ℚ := none
  p_reassign : Option ℚ := none
  irswt : Option Bool := none
  irs : Option Bool := none
  iuch : Option ℚ := none
  fr : Option ℚ := none
  arw : Option ℚ := none
deriving DecidableEq

/-- Build-time failure: an unrecognized `func_key` (the `IOError` branch) or
a missing required key (a Python `KeyError` on `vr_control_func_dict[...]`). -/
inductive BuildError where
  | unknownKey (k : String)
  | missingField (f : String)
deriving DecidableEq

/-- Evaluation-time failure: arithmetic on an unresolved (`None`) planned
time, the only exception the strategy bodies themselves can raise. -/
inductive EvalError where
  | unresolvedTime
deriving DecidableEq

/-- The closure produced by a successful build: the selected strategy
together with every constant captured at build time. -/
inductive CompiledObjective where
  | total_distance (reward_per_rq : ℚ)
  | total_system_time (irswt : Bool) (reward_per_rq : ℚ)
  | user_times (reward_per_rq : ℚ)
  | total_travel_times (reward_per_rq : ℚ)
  | system_and_user_time (uw reward_per_rq : ℚ)
  | distance_and_user_times (vot reward_per_rq : ℚ)
  | distance_and_user_times_man (vot dc reward_per_rq : ℚ) (irs : Bool)
      (p_reassign : Option ℚ)
  | distance_and_user_times_man_with_reservation (vot dc rrw reward_per_rq : ℚ)
      (irs : Bool) (iuch : Option ℚ)
  | distance_and_user_times_man_SoD (vot dc fr : ℚ)
  | distance_and_user_times_with_walk (vot reward_per_rq : ℚ)
  | distance_and_user_vehicle_times (vot reward_per_rq : ℚ)
  | sys_time_and_detour_time (dtw reward_per_rq : ℚ)
  | IRS_study_standard
  | soft_time_windows
deriving DecidableEq

/-- `return_pooling_objective_function`: validates `func_key`, reads the
required keys, and precomputes the assignment-reward constants. -/
def return_pooling_objective_function (cfg : VrControlFuncDict) :
    Except BuildError CompiledObjective :=
  match cfg.func_key with
  | "total_distance" =>
      .ok (.total_distance (pow10ceil MAX_DISTANCE))
  | "total_system_time" =>
      .ok (.total_system_time (cfg.irswt.getD false) (pow10ceil (MAX_DELAY * 10)))
  | "user_times" =>
      .ok (.user_times (pow10ceil MAX_DELAY))
  | "total_travel_times" =>
      .ok (.total_travel_times (pow10ceil (MAX_DELAY * 10)))
  | "system_and_user_time" =>
      match cfg.uw with
      | none => .error (.missingField "uw")
      | some uw => .ok (.system_and_user_time uw (pow10ceil (MAX_DELAY * 10)))
  | "distance_and_user_times" =>
      match cfg.vot with
      | none => .error (.missingField "vot")
      | some vot =>
          .ok (.distance_and_user_times vot
            (pow10ceil (MAX_DISTANCE * MAX_BASE_DISTANCE_COST + MAX_DELAY * vot)))
  | "distance_and_user_times_man" =>
      match cfg.vot with
      | none => .error (.missingField "vot")
      | some vot =>
          match cfg.dc with
          | none => .error (.missingField "dc")
          | some dc =>
              let reward_per_rq :=
                match cfg.arw with
                | some w => w
                | none => pow10ceil (MAX_DISTANCE * dc + MAX_DELAY * vot)
              .ok (.distance_and_user_times_man vot dc reward_per_rq
                (cfg.irs.getD true) cfg.p_reassign)
  | "distance_and_user_times_man_with_reservation" =>
      match cfg.vot with
      | none => .error (.missingField "vot")
      | some vot =>
          match cfg.dc with
          | none => .error (.missingField "dc")
          | some dc =>
              .ok (.distance_and_user_times_man_with_reservation vot dc
                (cfg.rrw.getD 10)
                (pow10ceil (MAX_DISTANCE * dc + MAX_DELAY * vot))
                (cfg.irs.getD true) cfg.iuch)
  | "distance_and_user_times_man_SoD" =>
      match cfg.vot with
      | none => .error (.missingField "vot")
      | some vot =>
          match cfg.dc with
          | none => .error (.missingField "dc")
          | some dc =>
              match cfg.fr with
              | none => .error (.missingField "fr")
              | some fr => .ok (.distance_and_user_times_man_SoD vot dc fr)
  | "distance_and_user_times_with_walk" =>
      match cfg.vot with
      | none => .error (.missingField "vot")
      | some vot =>
          .ok (.distance_and_user_times_with_walk vot
            (pow10ceil (MAX_DISTANCE * MAX_BASE_DISTANCE_COST + MAX_DELAY * vot)))
  | "distance_and_user_vehicle_times" =>
      match cfg.vot with
      | none => .error (.missingField "vot")
      | some vot =>
          .ok (.distance_and_user_vehicle_times vot
            (pow10ceil (MAX_DISTANCE * MAX_BASE_DISTANCE_COST + MAX_DELAY * vot)))
  | "sys_time_and_detour_time" =>
      match cfg.dtw with
      | none => .error (.missingField "dtw")
      | some dtw =>
          .ok (.sys_time_and_detour_time dtw (pow10ceil (MAX_DELAY * 10)))
  | "IRS_study_standard" => .ok .IRS_study_standard
  | "soft_time_windows" => .ok .soft_time_windows
  | k => .error (.unknownKey k)

/-- The shared route loop: walk the stops keeping `last_pos`, and on every
selected stop whose position differs from `last_pos` add the extracted
component of one `return_travel_costs_1to1` query and advance `last_pos`.
All strategies use `sel _ = true`; the legacy `IRS_study_standard` loop
additionally requires a nonempty boarding list. -/
def legSum (router : RoutingEngine) (ext : TravelCost → ℚ)
    (sel : PlanStop → Bool) : Pos → List PlanStop → ℚ
  | _, [] => 0
  | last_pos, ps :: rest =>
    if ps.pos ≠ last_pos ∧ sel ps then
      ext (router last_pos ps.pos) + legSum router ext sel ps.pos rest
    else
      legSum router ext sel last_pos rest

/-- The `(origin, destination)` pairs the route loop queries the oracle on. -/
def legCalls (sel : PlanStop → Bool) : Pos → List PlanStop → List (Pos × Pos)
  | _, [] => []
  | last_pos, ps :: rest =>
    if ps.pos ≠ last_pos ∧ sel ps then
      (last_pos, ps.pos) :: legCalls sel ps.pos rest
    else
      legCalls sel last_pos rest

/-- Sum of user times `drop_off_time - rq_time` over `pax_info`. -/
def sumUserTimes (rqd : RqDict) (pax : List PaxEntry) : ℚ :=
  (pax.map (fun e => e.deboard - (rqd e.rid).rq_time)).sum

/-- End time for `total_system_time`: arrival at the last stop, or `now` for
an empty plan; with the `irswt` flag, a locked-end last stop is instead timed
by a fresh routing query from the previous stop (or from the vehicle). -/
def tst_end_time (irswt : Bool) (now : ℚ) (veh : SimulationVehicle)
    (stops : List PlanStop) (router : RoutingEngine) : Except EvalError ℚ :=
  match stops.getLast? with
  | none => .ok now
  | some lastS =>
    if irswt ∧ lastS.locked_end then
      match stops.dropLast.getLast? with
      | some prevS =>
          match prevS.planned_arrival with
          | none => .error .unresolvedTime
          | some t => .ok (t + (router prevS.pos lastS.pos).tt)
      | none => .ok (now + (router veh.pos lastS.pos).tt)
    else
      match lastS.planned_arrival with
      | none => .error .unresolvedTime
      | some t => .ok t

/-- End time used by `system_and_user_time` / `sys_time_and_detour_time`:
arrival at the last stop, or `now` for an empty plan. -/
def plan_end_time (now : ℚ) (stops : List PlanStop) : Except EvalError ℚ :=
  match stops.getLast? with
  | none => .ok now
  | some lastS =>
    match lastS.planned_arrival with
    | none => .error .unresolvedTime
    | some t => .ok t

/-- Requests of `pax_info` whose recorded last offer names a different
vehicle (`offer is not None and offer.get("vid") is not None and
offer["vid"] != veh_obj.vid`). -/
def reassignCount (rqd : RqDict) (veh_vid : ℕ) (pax : List PaxEntry) : ℕ :=
  (pax.filter (fun e =>
    match (rqd e.rid).current_offer with
    | none => false
    | some o =>
        match o.vid with
        | none => false
        | some v => v != veh_vid)).length

/-- Vehicle dwell time at one stop for `distance_and_user_vehicle_times`:
`departure - arrival` when both are planned and positive. -/
def vehWaitAt (ps : PlanStop) : ℚ :=
  match ps.planned_arrival with
  | none => 0
  | some a =>
      match ps.planned_departure with
      | none => 0
      | some d => if d - a > 0 then d - a else 0

def trueSel : PlanStop → Bool := fun _ => true

/-- The selected strategy's `control_f` closure. -/
def control_f (co : CompiledObjective) (simulation_time : ℚ)
    (veh_obj : SimulationVehicle) (veh_plan : VehiclePlan) (rq_dict : RqDict)
    (routing_engine : RoutingEngine) : Except EvalError ℚ :=
  match co with
  | .total_distance reward_per_rq =>
      .ok (legSum routing_engine (fun c => c.dist) trueSel veh_obj.pos
            veh_plan.list_plan_stops
          - (veh_plan.pax_info.length : ℚ) * reward_per_rq)
  | .total_system_time irswt reward_per_rq =>
      match tst_end_time irswt simulation_time veh_obj veh_plan.list_plan_stops
          routing_engine with
      | .error e => .error e
      | .ok end_time =>
          .ok (end_time - simulation_time
            - (veh_plan.pax_info.length : ℚ) * reward_per_rq)
  | .user_times reward_per_rq =>
      .ok (sumUserTimes rq_dict veh_plan.pax_info
          - (veh_plan.pax_info.length : ℚ) * reward_per_rq)
  | .total_travel_times reward_per_rq =>
      .ok (legSum routing_engine (fun c => c.tt) trueSel veh_obj.pos
            veh_plan.list_plan_stops
          - (veh_plan.pax_info.length : ℚ) * reward_per_rq)
  | .system_and_user_time uw reward_per_rq =>
      match plan_end_time simulation_time veh_plan.list_plan_stops with
      | .error e => .error e
      | .ok end_time =>
          .ok (end_time - simulation_time
            + uw * sumUserTimes rq_dict veh_plan.pax_info
            - (veh_plan.pax_info.length : ℚ) * reward_per_rq)
  | .distance_and_user_times vot reward_per_rq =>
      .ok (legSum routing_engine (fun c => c.dist) trueSel veh_obj.pos
            veh_plan.list_plan_stops * veh_obj.distance_cost
          + sumUserTimes rq_dict veh_plan.pax_info * vot
          - (veh_plan.pax_info.length : ℚ) * reward_per_rq)
  | .distance_and_user_times_man vot dc reward_per_rq irs p_reassign =>
      let assignment_reward :=
        (veh_plan.pax_info.length : ℚ) * reward_per_rq
          - (match p_reassign with
             | none => 0
             | some p =>
                 p * (reassignCount rq_dict veh_obj.vid veh_plan.pax_info : ℚ))
      .ok (legSum routing_engine (fun c => c.dist) trueSel veh_obj.pos
            (veh_plan.list_plan_stops.takeWhile
              (fun ps => !(ps.locked_end && irs))) * dc
          + sumUserTimes rq_dict veh_plan.pax_info * vot - assignment_reward)
  | .distance_and_user_times_man_with_reservation vot dc rrw reward_per_rq
      irs iuch =>
      let assignment_reward :=
        (veh_plan.pax_info.map (fun e =>
          if (rq_dict e.rid).reservation_flag then rrw * reward_per_rq
          else reward_per_rq)).sum
      let sum_user_times :=
        (veh_plan.pax_info.map (fun e =>
          let ept := (rq_dict e.rid).ept
          match iuch with
          | some horizon =>
              if ept - simulation_time > horizon then 0 else e.deboard - ept
          | none => e.deboard - ept)).sum
      .ok (legSum routing_engine (fun c => c.dist) trueSel veh_obj.pos
            (veh_plan.list_plan_stops.takeWhile
              (fun ps => !(ps.locked_end && irs))) * dc
          + sum_user_times * vot - assignment_reward)
  | .distance_and_user_times_man_SoD vot dc fr =>
      let fixed_reward :=
        (veh_plan.list_plan_stops.map (fun ps =>
          if ps.fixed_stop then
            fr * ((ps.boarding_rids.length + ps.alighting_rids.length : ℕ) : ℚ)
          else 0)).sum
      .ok (legSum routing_engine (fun c => c.dist) trueSel veh_obj.pos
            veh_plan.list_plan_stops * dc
          + sumUserTimes rq_dict veh_plan.pax_info * vot
          - (veh_plan.pax_info.length : ℚ) * LARGE_INT - fixed_reward)
  | .distance_and_user_times_with_walk vot reward_per_rq =>
      let sum_user_times :=
        (veh_plan.pax_info.map (fun e =>
          e.deboard - (rq_dict e.rid).rq_time
            + (rq_dict e.rid).walking_time_end)).sum
      .ok (legSum routing_engine (fun c => c.dist) trueSel veh_obj.pos
            veh_plan.list_plan_stops * veh_obj.distance_cost
          + sum_user_times * vot
          - (veh_plan.pax_info.length : ℚ) * reward_per_rq)
  | .distance_and_user_vehicle_times vot reward_per_rq =>
      let assignment_reward :=
        if veh_plan.list_plan_stops.any (fun ps => ps.planned_arrival.isNone)
        then -(veh_plan.pax_info.length : ℚ) * LARGE_INT
        else (veh_plan.pax_info.length : ℚ) * reward_per_rq
      let sum_veh_wait := (veh_plan.list_plan_stops.map vehWaitAt).sum
      .ok (legSum routing_engine (fun c => c.dist) trueSel veh_obj.pos
            veh_plan.list_plan_stops * veh_obj.distance_cost
          + (sumUserTimes rq_dict veh_plan.pax_info + sum_veh_wait) * vot
          - assignment_reward)
  | .sys_time_and_detour_time dtw reward_per_rq =>
      match plan_end_time simulation_time veh_plan.list_plan_stops with
      | .error e => .error e
      | .ok end_time =>
          let sys_time := end_time - simulation_time
          let s_det :=
            (veh_plan.pax_info.map (fun e =>
              e.deboard - e.board - (rq_dict e.rid).init_direct_tt)).sum
          if veh_plan.pax_info.length > 0 then
            .ok (sys_time + s_det * dtw
              - (veh_plan.pax_info.length : ℚ) * reward_per_rq)
          else
            .ok (sys_time - (veh_plan.pax_info.length : ℚ) * reward_per_rq)
  | .IRS_study_standard =>
      let unboarded :=
        veh_plan.pax_info.filter (fun e => (rq_dict e.rid).pu_time.isNone)
      let sum_user_wait_times :=
        (unboarded.map (fun e => e.board - (rq_dict e.rid).rq_time)).sum
      let assignment_reward :=
        (unboarded.map (fun e =>
          let prq := rq_dict e.rid
          if prq.locked then LARGE_INT * 10000
          else if prq.status_lt_locked then LARGE_INT
          else LARGE_INT * 100)).sum
      .ok (legSum routing_engine (fun c => c.dist)
            (fun ps => !ps.boarding_rids.isEmpty) veh_obj.pos
            veh_plan.list_plan_stops
          + sum_user_wait_times - assignment_reward)
  | .soft_time_windows =>
      let unboarded :=
        veh_plan.pax_info.filter (fun e => (rq_dict e.rid).pu_time.isNone)
      let sum_user_wait_times :=
        (unboarded.map (fun e => e.board - (rq_dict e.rid).rq_time)).sum
      let assignment_reward :=
        (unboarded.map (fun e =>
          let prq := rq_dict e.rid
          if prq.locked then LARGE_INT * 1000
          else if prq.t_pu_earliest ≤ e.board ∧ e.board ≤ prq.t_pu_latest then
            LARGE_INT + 100
          else LARGE_INT)).sum
      .ok (legSum routing_engine (fun c => c.dist) trueSel veh_obj.pos
            veh_plan.list_plan_stops
          + sum_user_wait_times - assignment_reward)

/-- `embedded_control_f`: the try/except boundary around the selected
strategy; it logs (a side effect outside the embedding) and re-raises the
same exception. -/
def embedded_control_f (co : CompiledObjective) (simulation_time : ℚ)
    (veh_obj : SimulationVehicle) (veh_plan : VehiclePlan) (rq_dict : RqDict)
    (routing_engine : RoutingEngine) : Except EvalError ℚ :=
  match control_f co simulation_time veh_obj veh_plan rq_dict routing_engine with
  | .ok v => .ok v
  | .error e => .error e

/-- The oracle queries one evaluation performs, per strategy: the route-loop
queries (possibly truncated at a locked-end stop, or restricted to boarding
stops for the legacy strategy), plus the single end-time query of
`total_system_time` with the `irswt` flag. -/
def oracleCalls (co : CompiledObjective) (veh_obj : SimulationVehicle)
    (veh_plan : VehiclePlan) : List (Pos × Pos) :=
  match co with
  | .total_distance _ =>
      legCalls trueSel veh_obj.pos veh_plan.list_plan_stops
  | .total_system_time false _ => []
  | .total_system_time true _ =>
      match veh_plan.list_plan_stops.getLast? with
      | none => []
      | some lastS =>
        if lastS.locked_end then
          match veh_plan.list_plan_stops.dropLast.getLast? with
          | some prevS => [(prevS.pos, lastS.pos)]
          | none => [(veh_obj.pos, lastS.pos)]
        else []
  | .user_times _ => []
  | .total_travel_times _ =>
      legCalls trueSel veh_obj.pos veh_plan.list_plan_stops
  | .system_and_user_time _ _ => []
  | .distance_and_user_times _ _ =>
      legCalls trueSel veh_obj.pos veh_plan.list_plan_stops
  | .distance_and_user_times_man _ _ _ irs _ =>
      legCalls trueSel veh_obj.pos
        (veh_plan.list_plan_stops.takeWhile (fun ps => !(ps.locked_end && irs)))
  | .distance_and_user_times_man_with_reservation _ _ _ _ irs _ =>
      legCalls trueSel veh_obj.pos
        (veh_plan.list_plan_stops.takeWhile (fun ps => !(ps.locked_end && irs)))
  | .distance_and_user_times_man_SoD _ _ _ =>
      legCalls trueSel veh_obj.pos veh_plan.list_plan_stops
  | .distance_and_user_times_with_walk _ _ =>
      legCalls trueSel veh_obj.pos veh_plan.list_plan_stops
  | .distance_and_user_vehicle_times _ _ =>
      legCalls trueSel veh_obj.pos veh_plan.list_plan_stops
  | .sys_time_and_detour_time _ _ => []
  | .IRS_study_standard =>
      legCalls (fun ps => !ps.boarding_rids.isEmpty) veh_obj.pos
        veh_plan.list_plan_stops
  | .soft_time_windows =>
      legCalls trueSel veh_obj.pos veh_plan.list_plan_stops

/-- Whether the strategy is `total_system_time` with the `irswt` flag, the
one strategy that issues the extra end-time routing query. -/
def usesEndQuery : CompiledObjective → Bool
  | .total_system_time b _ => b
  | _ => false

/-- Number of position changes along the plan, starting from the vehicle's
current position. -/
def posChanges : Pos → List Pos → ℕ
  | _, [] => 0
  | last_pos, p :: rest =>
      if p ≠ last_pos then 1 + posChanges p rest else posChanges last_pos rest

/-- The reward constant captured by the closure, for the strategies that
have a single per-request reward. -/
def rewardOf : CompiledObjective → Option ℚ
  | .total_distance r => some r
  | .total_system_time _ r => some r
  | .user_times r => some r
  | .total_travel_times r => some r
  | .system_and_user_time _ r => some r
  | .distance_and_user_times _ r => some r
  | .distance_and_user_times_man _ _ r _ _ => some r
  | .distance_and_user_times_man_with_reservation _ _ _ r _ _ => some r
  | .distance_and_user_times_man_SoD _ _ _ => none
  | .distance_and_user_times_with_walk _ r => some r
  | .distance_and_user_vehicle_times _ r => some r
  | .sys_time_and_detour_time _ r => some r
  | .IRS_study_standard => none
  | .soft_time_windows => none

/-- The theoretical cost ceiling a configuration's reward is derived from:
present exactly for the strategies whose reward constant is computed by the
`10 ** np.ceil(np.log10 ...)` rule (so absent for `..._man_SoD`, the legacy
strategies, and `..._man` with an explicit `arw` override). -/
def derivedCeiling (cfg : VrControlFuncDict) : Option ℚ :=
  match cfg.func_key with
  | "total_distance" => some MAX_DISTANCE
  | "total_system_time" => some (MAX_DELAY * 10)
  | "user_times" => some MAX_DELAY
  | "total_travel_times" => some (MAX_DELAY * 10)
  | "system_and_user_time" => some (MAX_DELAY * 10)
  | "distance_and_user_times" =>
      cfg.vot.map (fun vot =>
        MAX_DISTANCE * MAX_BASE_DISTANCE_COST + MAX_DELAY * vot)
  | "distance_and_user_times_man" =>
      if cfg.arw.isSome then none
      else
        match cfg.vot, cfg.dc with
        | some vot, some dc => some (MAX_DISTANCE * dc + MAX_DELAY * vot)
        | _, _ => none
  | "distance_and_user_times_man_with_reservation" =>
      match cfg.vot, cfg.dc with
      | some vot, some dc => some (MAX_DISTANCE * dc + MAX_DELAY * vot)
      | _, _ => none
  | "distance_and_user_times_with_walk" =>
      cfg.vot.map (fun vot =>
        MAX_DISTANCE * MAX_BASE_DISTANCE_COST + MAX_DELAY * vot)
  | "distance_and_user_vehicle_times" =>
      cfg.vot.map (fun vot =>
        MAX_DISTANCE * MAX_BASE_DISTANCE_COST + MAX_DELAY * vot)
  | "sys_time_and_detour_time" => some (MAX_DELAY * 10)
  | _ => none

/-- The catalog of recognized `func_key` strings. -/
def VALID_FUNC_KEYS : List String :=
  ["total_distance", "total_system_time", "user_times", "total_travel_times",
   "system_and_user_time", "distance_and_user_times",
   "distance_and_user_times_man", "distance_and_user_times_man_with_reservation",
   "distance_and_user_times_man_SoD", "distance_and_user_times_with_walk",
   "distance_and_user_vehicle_times", "sys_time_and_detour_time",
   "IRS_study_standard", "soft_time_windows"]

/-- The first required strategy-specific key the configuration lacks, in
the order the build reads them with `vr_control_func_dict[...]` (the access
whose `KeyError` Python would raise first): `uw` for `system_and_user_time`,
`vot` for the distance-and-user-times family, then `dc` for the manual
variants, then `fr` for `..._man_SoD`, and `dtw` for
`sys_time_and_detour_time`.  `none` means every required key is present. -/
def missingRequiredField (cfg : VrControlFuncDict) : Option String :=
  match cfg.func_key with
  | "system_and_user_time" => if cfg.uw.isNone then some "uw" else none
  | "distance_and_user_times" => if cfg.vot.isNone then some "vot" else none
  | "distance_and_user_times_man" =>
      if cfg.vot.isNone then some "vot"
      else if cfg.dc.isNone then some "dc"
      else none
  | "distance_and_user_times_man_with_reservation" =>
      if cfg.vot.isNone then some "vot"
      else if cfg.dc.isNone then some "dc"
      else none
  | "distance_and_user_times_man_SoD" =>
      if cfg.vot.isNone then some "vot"
      else if cfg.dc.isNone then some "dc"
      else if cfg.fr.isNone then some "fr"
      else none
  | "distance_and_user_times_with_walk" =>
      if cfg.vot.isNone then some "vot" else none
  | "distance_and_user_vehicle_times" =>
      if cfg.vot.isNone then some "vot" else none
  | "sys_time_and_detour_time" => if cfg.dtw.isNone then some "dtw" else none
  | _ => none

/-! ### Concrete scenario inputs used by witnesses and counterexamples -/

def veh7 : SimulationVehicle := ⟨0, 1, 0⟩

def plan7 : VehiclePlan :=
  ⟨[⟨1, some 0, some 0, false, false, [], []⟩,
    ⟨2, some 0, some 0, false, false, [], []⟩],
   [⟨1, 0, 0⟩]⟩

def router7 : RoutingEngine := fun a b =>
  if a = 0 ∧ b = 1 then ⟨50, 500⟩
  else if a = 1 ∧ b = 2 then ⟨30, 300⟩
  else ⟨0, 0⟩

def rq7 : RqDict := fun _ => ⟨0, false, 0, 0, none, false, true, 0, 0, none, 0⟩

def cfg7 : VrControlFuncDict := { func_key := "total_distance" }

def cfg3 : VrControlFuncDict := { func_key := "fastest_route" }

def cfg3b : VrControlFuncDict :=
  { func_key := "distance_and_user_times_man_SoD", vot := some 1,
    dc := some 1 }

def cfg10 : VrControlFuncDict :=
  { func_key := "distance_and_user_times_man", vot := some 1, dc := some 1,
    arw := some 7 }

def veh2 : SimulationVehicle := ⟨0, 1, 0⟩

def plan2 : VehiclePlan :=
  ⟨[⟨1, none, none, false, false, [], []⟩], [⟨1, 0, 100⟩]⟩

def router2 : RoutingEngine := fun _ _ => ⟨0, 0⟩

def plan8stops : List PlanStop :=
  [⟨3, some 40, some 50, false, false, [], []⟩,
   ⟨4, none, none, true, false, [], []⟩]

def router8 : RoutingEngine := fun a b =>
  if a = 3 ∧ b = 4 then ⟨25, 999⟩ else ⟨0, 0⟩

def veh5 : SimulationVehicle := ⟨5, 1, 0⟩

def plan5 : VehiclePlan := ⟨[⟨5, some 0, some 0, true, false, [], []⟩], []⟩

/-! ### Helper lemmas -/

lemma pow10ceil_pos (x : ℚ) : 0 < pow10ceil x :=
  zpow_pos (by norm_num) _

lemma le_pow10ceil (x : ℚ) : x ≤ pow10ceil x := by
  have h := Int.self_le_zpow_clog (b := 10) (by norm_num) x (R := ℚ)
  simpa [pow10ceil] using h

lemma pow10ceil_min {x : ℚ} (hx : 0 < x) {j : ℤ} (hj : x ≤ (10 : ℚ) ^ j) :
    pow10ceil x ≤ (10 : ℚ) ^ j := by
  have h10 : ((10 : ℕ) : ℚ) = (10 : ℚ) := by norm_num
  have hcl : Int.clog 10 x ≤ j := by
    have := (Int.le_zpow_iff_clog_le (b := 10) (by norm_num) hx (x := j) (R := ℚ))
    rw [h10] at this
    exact this.mp hj
  exact zpow_le_zpow_right₀ (by norm_num) hcl

lemma clog10_eq_of {x : ℚ} {k : ℤ} (h1 : (10 : ℚ) ^ (k - 1) < x)
    (h2 : x ≤ (10 : ℚ) ^ k) : Int.clog 10 x = k := by
  have hx : 0 < x := lt_trans (zpow_pos (by norm_num) _) h1
  have h10 : ((10 : ℕ) : ℚ) = (10 : ℚ) := by norm_num
  have hle : Int.clog 10 x ≤ k := by
    have := (Int.le_zpow_iff_clog_le (b := 10) (by norm_num) hx (x := k) (R := ℚ))
    rw [h10] at this
    exact this.mp h2
  have hge : k ≤ Int.clog 10 x := by
    by_contra hlt
    push_neg at hlt
    have hck : Int.clog 10 x ≤ k - 1 := by omega
    have hx1 : x ≤ (10 : ℚ) ^ Int.clog 10 x := by
      have := Int.self_le_zpow_clog (b := 10) (by norm_num) x (R := ℚ)
      rwa [h10] at this
    have : x ≤ (10 : ℚ) ^ (k - 1) :=
      le_trans hx1 (zpow_le_zpow_right₀ (by norm_num) hck)
    exact absurd h1 (not_lt.mpr this)
  omega

lemma pow10ceil_eq_of {x : ℚ} {k : ℤ} (h1 : (10 : ℚ) ^ (k - 1) < x)
    (h2 : x ≤ (10 : ℚ) ^ k) : pow10ceil x = (10 : ℚ) ^ k := by
  rw [pow10ceil, clog10_eq_of h1 h2]

lemma pow10ceil_MAX_DISTANCE : pow10ceil MAX_DISTANCE = 100000 := by
  have h := pow10ceil_eq_of (x := MAX_DISTANCE) (k := 5)
    (by norm_num [MAX_DISTANCE]) (by norm_num [MAX_DISTANCE])
  rw [h]; norm_num

lemma pow10ceil_MAX_DELAY : pow10ceil MAX_DELAY = 10000 := by
  have h := pow10ceil_eq_of (x := MAX_DELAY) (k := 4)
    (by norm_num [MAX_DELAY]) (by norm_num [MAX_DELAY])
  rw [h]; norm_num

lemma pow10ceil_MAX_DELAY_ten : pow10ceil (MAX_DELAY * 10) = 100000 := by
  have h := pow10ceil_eq_of (x := MAX_DELAY * 10) (k := 5)
    (by norm_num [MAX_DELAY]) (by norm_num [MAX_DELAY])
  rw [h]; norm_num

lemma legCalls_ne (sel : PlanStop → Bool) :
    ∀ (l : List PlanStop) (last_pos : Pos),
      ∀ c ∈ legCalls sel last_pos l, c.1 ≠ c.2 := by
  intro l
  induction l with
  | nil => intro last_pos c hc; simp [legCalls] at hc
  | cons ps rest ih =>
      intro last_pos c hc
      rw [legCalls] at hc
      by_cases h : ps.pos ≠ last_pos ∧ sel ps
      · rw [if_pos h] at hc
        rcases List.mem_cons.mp hc with h1 | h1
        · subst h1; exact fun hcontr => h.1 hcontr.symm
        · exact ih ps.pos c h1
      · rw [if_neg h] at hc
        exact ih last_pos c hc

lemma posChanges_le_one_add (l : List Pos) :
    ∀ s p : Pos, posChanges s l ≤ 1 + posChanges p l := by
  intro s p
  cases l with
  | nil => simp [posChanges]
  | cons q t =>
      show (if q ≠ s then 1 + posChanges q t else posChanges s t)
          ≤ 1 + (if q ≠ p then 1 + posChanges q t else posChanges p t)
      split_ifs with h1 h2 h2
      · omega
      · rw [not_ne_iff] at h2; subst h2; omega
      · rw [not_ne_iff] at h1; subst h1; omega
      · rw [not_ne_iff] at h1; rw [not_ne_iff] at h2
        subst h1; subst h2; omega

lemma legCalls_length_le_posChanges (sel : PlanStop → Bool) :
    ∀ (l : List PlanStop) (last_pos : Pos),
      (legCalls sel last_pos l).length ≤
        posChanges last_pos (l.map PlanStop.pos) := by
  intro l
  induction l with
  | nil => intro last_pos; simp [legCalls, posChanges]
  | cons ps rest ih =>
      intro last_pos
      show (if ps.pos ≠ last_pos ∧ sel ps then
              (last_pos, ps.pos) :: legCalls sel ps.pos rest
            else legCalls sel last_pos rest).length
          ≤ (if ps.pos ≠ last_pos then
              1 + posChanges ps.pos (rest.map PlanStop.pos)
             else posChanges last_pos (rest.map PlanStop.pos))
      split_ifs with h1 h2 h2
      · simp only [List.length_cons]
        have := ih ps.pos
        omega
      · exact absurd h1.1 h2
      · have h3 := ih last_pos
        have h4 := posChanges_le_one_add (rest.map PlanStop.pos) last_pos ps.pos
        omega
      · exact ih last_pos

lemma posChanges_takeWhile_le (q : PlanStop → Bool) :
    ∀ (l : List PlanStop) (s : Pos),
      posChanges s ((l.takeWhile q).map PlanStop.pos) ≤
        posChanges s (l.map PlanStop.pos) := by
  intro l
  induction l with
  | nil => intro s; exact le_rfl
  | cons ps rest ih =>
      intro s
      by_cases hq : q ps
      · rw [List.takeWhile_cons_of_pos hq]
        show (if ps.pos ≠ s then
                1 + posChanges ps.pos ((rest.takeWhile q).map PlanStop.pos)
              else posChanges s ((rest.takeWhile q).map PlanStop.pos))
            ≤ (if ps.pos ≠ s then 1 + posChanges ps.pos (rest.map PlanStop.pos)
               else posChanges s (rest.map PlanStop.pos))
        split_ifs with h1
        · have := ih ps.pos; omega
        · exact ih s
      · rw [List.takeWhile_cons_of_neg hq]
        exact Nat.zero_le _

lemma legSum_eq_calls_sum (router : RoutingEngine) (ext : TravelCost → ℚ)
    (sel : PlanStop → Bool) :
    ∀ (l : List PlanStop) (last_pos : Pos),
      legSum router ext sel last_pos l =
        ((legCalls sel last_pos l).map (fun c => ext (router c.1 c.2))).sum := by
  intro l
  induction l with
  | nil => intro last_pos; simp [legSum, legCalls]
  | cons ps rest ih =>
      intro last_pos
      rw [legSum, legCalls]
      by_cases h : ps.pos ≠ last_pos ∧ sel ps
      · rw [if_pos h, if_pos h, List.map_cons, List.sum_cons, ih]
      · rw [if_neg h, if_neg h, ih]

lemma legSum_congr (ext : TravelCost → ℚ) (sel : PlanStop → Bool)
    (r1 r2 : RoutingEngine) :
    ∀ (l : List PlanStop) (last_pos : Pos),
      (∀ c ∈ legCalls sel last_pos l, r1 c.1 c.2 = r2 c.1 c.2) →
      legSum r1 ext sel last_pos l = legSum r2 ext sel last_pos l := by
  intro l last_pos h
  rw [legSum_eq_calls_sum, legSum_eq_calls_sum]
  exact congrArg List.sum (List.map_congr_left (fun c hc => by rw [h c hc]))

/-! ### Claim C9: the evaluation boundary re-raises unchanged -/

/-- C9: for every strategy, `embedded_control_f` returns exactly what the
selected strategy computes: a raised exception is re-raised unchanged (after
logging, a side effect outside the embedding) and no default or sentinel
score is ever substituted — every call either returns the strategy's score
or propagates the strategy's error. -/
theorem embedded_control_f_transparent (co : CompiledObjective)
    (simulation_time : ℚ) (veh_obj : SimulationVehicle)
    (veh_plan : VehiclePlan) (rq_dict : RqDict)
    (routing_engine : RoutingEngine) :
    embedded_control_f co simulation_time veh_obj veh_plan rq_dict
        routing_engine
      = control_f co simulation_time veh_obj veh_plan rq_dict routing_engine := by
  unfold embedded_control_f
  cases control_f co simulation_time veh_obj veh_plan rq_dict routing_engine <;>
    rfl

/-! ### Claim C6: empty plan evaluates to the zero baseline -/

/-- C6: for every strategy, evaluating a plan with no stops and no served
requests returns the finite baseline score 0: time terms fall back to
`now - now = 0`, distance and service terms are empty sums, and the
assignment reward is zero. -/
theorem empty_plan_zero_score (co : CompiledObjective) (simulation_time : ℚ)
    (veh_obj : SimulationVehicle) (rq_dict : RqDict)
    (routing_engine : RoutingEngine) :
    control_f co simulation_time veh_obj ⟨[], []⟩ rq_dict routing_engine
      = .ok 0 := by
  cases co with
  | distance_and_user_times_man vot dc r irs p =>
      cases p <;>
        simp [control_f, legSum, sumUserTimes, reassignCount]
  | distance_and_user_times_man_with_reservation vot dc rrw r irs iuch =>
      cases iuch <;> simp [control_f, legSum]
  | _ =>
      simp [control_f, legSum, sumUserTimes, tst_end_time, plan_end_time,
        vehWaitAt]

/-! ### Claim C7: the total_distance scenario -/

/-- C7: with strategy `total_distance`, vehicle at A, stops at B then C,
`dist(A,B) = 500`, `dist(B,C) = 300` and one served request, the build-time
reward is `10^⌈log10(100000)⌉ = 100000` and evaluation returns
`500 + 300 - 100000 = -99200`. -/
theorem total_distance_scenario :
    return_pooling_objective_function cfg7 = .ok (.total_distance 100000) ∧
    embedded_control_f (.total_distance 100000) 0 veh7 plan7 rq7 router7
      = .ok (-99200) := by
  constructor
  · show Except.ok (CompiledObjective.total_distance (pow10ceil MAX_DISTANCE))
        = _
    rw [pow10ceil_MAX_DISTANCE]
  · norm_num [embedded_control_f, control_f, legSum, trueSel, veh7, plan7,
      router7]

/-! ### Claim C3: configuration failures happen at build time -/

/-- C3: `return_pooling_objective_function` fails — producing no evaluator —
whenever the strategy discriminator is not one of the catalog strings, and
whenever any required strategy-specific field of the selected strategy
(`uw`, `vot`, `dc`, `fr` or `dtw`, per strategy) is absent, reporting the
first missing key; conversely a catalog strategy with every required field
present always yields an evaluator.  The failure is a build-time
`BuildError`; evaluation errors live in the separate `EvalError` type, so a
configuration failure can never surface during `control_f`. -/
theorem build_time_config_failures :
    (∀ cfg : VrControlFuncDict, cfg.func_key ∉ VALID_FUNC_KEYS →
      return_pooling_objective_function cfg
        = .error (.unknownKey cfg.func_key)) ∧
    (∀ (cfg : VrControlFuncDict) (f : String),
      missingRequiredField cfg = some f →
      return_pooling_objective_function cfg = .error (.missingField f)) ∧
    (∀ cfg : VrControlFuncDict, cfg.func_key ∈ VALID_FUNC_KEYS →
      missingRequiredField cfg = none →
      ∃ co, return_pooling_objective_function cfg = .ok co) := by
  refine ⟨?_, ?_, ?_⟩
  · intro cfg h
    unfold return_pooling_objective_function
    split <;>
      first
        | rfl
        | (rename_i heq; rw [heq] at h; simp [VALID_FUNC_KEYS] at h)
  · intro cfg f hm
    unfold missingRequiredField at hm
    split at hm
    · -- system_and_user_time
      rename_i heq
      cases huw : cfg.uw with
      | none =>
          rw [huw] at hm; simp at hm; subst hm
          unfold return_pooling_objective_function
          rw [heq, huw]; rfl
      | some u => rw [huw] at hm; simp at hm
    · -- distance_and_user_times
      rename_i heq
      cases hv : cfg.vot with
      | none =>
          rw [hv] at hm; simp at hm; subst hm
          unfold return_pooling_objective_function
          rw [heq, hv]; rfl
      | some v => rw [hv] at hm; simp at hm
    · -- distance_and_user_times_man
      rename_i heq
      cases hv : cfg.vot with
      | none =>
          rw [hv] at hm; simp at hm; subst hm
          unfold return_pooling_objective_function
          rw [heq, hv]; rfl
      | some v =>
          cases hd : cfg.dc with
          | none =>
              rw [hv, hd] at hm; simp at hm; subst hm
              unfold return_pooling_objective_function
              rw [heq, hv, hd]; rfl
          | some d => rw [hv, hd] at hm; simp at hm
    · -- distance_and_user_times_man_with_reservation
      rename_i heq
      cases hv : cfg.vot with
      | none =>
          rw [hv] at hm; simp at hm; subst hm
          unfold return_pooling_objective_function
          rw [heq, hv]; rfl
      | some v =>
          cases hd : cfg.dc with
          | none =>
              rw [hv, hd] at hm; simp at hm; subst hm
              unfold return_pooling_objective_function
              rw [heq, hv, hd]; rfl
          | some d => rw [hv, hd] at hm; simp at hm
    · -- distance_and_user_times_man_SoD
      rename_i heq
      cases hv : cfg.vot with
      | none =>
          rw [hv] at hm; simp at hm; subst hm
          unfold return_pooling_objective_function
          rw [heq, hv]; rfl
      | some v =>
          cases hd : cfg.dc with
          | none =>
              rw [hv, hd] at hm; simp at hm; subst hm
              unfold return_pooling_objective_function
              rw [heq, hv, hd]; rfl
          | some d =>
              cases hf : cfg.fr with
              | none =>
                  rw [hv, hd, hf] at hm; simp at hm; subst hm
                  unfold return_pooling_objective_function
                  rw [heq, hv, hd, hf]; rfl
              | some fr => rw [hv, hd, hf] at hm; simp at hm
    · -- distance_and_user_times_with_walk
      rename_i heq
      cases hv : cfg.vot with
      | none =>
          rw [hv] at hm; simp at hm; subst hm
          unfold return_pooling_objective_function
          rw [heq, hv]; rfl
      | some v => rw [hv] at hm; simp at hm
    · -- distance_and_user_vehicle_times
      rename_i heq
      cases hv : cfg.vot with
      | none =>
          rw [hv] at hm; simp at hm; subst hm
          unfold return_pooling_objective_function
          rw [heq, hv]; rfl
      | some v => rw [hv] at hm; simp at hm
    · -- sys_time_and_detour_time
      rename_i heq
      cases hdtw : cfg.dtw with
      | none =>
          rw [hdtw] at hm; simp at hm; subst hm
          unfold return_pooling_objective_function
          rw [heq, hdtw]; rfl
      | some dtw => rw [hdtw] at hm; simp at hm
    · -- strategies with no required fields
      simp at hm
  · intro cfg hkey hm
    unfold missingRequiredField at hm
    unfold return_pooling_objective_function
    split
    · exact ⟨_, rfl⟩
    · exact ⟨_, rfl⟩
    · exact ⟨_, rfl⟩
    · exact ⟨_, rfl⟩
    · -- system_and_user_time
      rename_i heq
      rw [heq] at hm
      cases huw : cfg.uw with
      | none => rw [huw] at hm; simp at hm
      | some u => exact ⟨_, rfl⟩
    · -- distance_and_user_times
      rename_i heq
      rw [heq] at hm
      cases hv : cfg.vot with
      | none => rw [hv] at hm; simp at hm
      | some v => exact ⟨_, rfl⟩
    · -- distance_and_user_times_man
      rename_i heq
      rw [heq] at hm
      cases hv : cfg.vot with
      | none => rw [hv] at hm; simp at hm
      | some v =>
          cases hd : cfg.dc with
          | none => rw [hv, hd] at hm; simp at hm
          | some d => exact ⟨_, rfl⟩
    · -- distance_and_user_times_man_with_reservation
      rename_i heq
      rw [heq] at hm
      cases hv : cfg.vot with
      | none => rw [hv] at hm; simp at hm
      | some v =>
          cases hd : cfg.dc with
          | none => rw [hv, hd] at hm; simp at hm
          | some d => exact ⟨_, rfl⟩
    · -- distance_and_user_times_man_SoD
      rename_i heq
      rw [heq] at hm
      cases hv : cfg.vot with
      | none => rw [hv] at hm; simp at hm
      | some v =>
          cases hd : cfg.dc with
          | none => rw [hv, hd] at hm; simp at hm
          | some d =>
              cases hf : cfg.fr with
              | none => rw [hv, hd, hf] at hm; simp at hm
              | some fr => exact ⟨_, rfl⟩
    · -- distance_and_user_times_with_walk
      rename_i heq
      rw [heq] at hm
      cases hv : cfg.vot with
      | none => rw [hv] at hm; simp at hm
      | some v => exact ⟨_, rfl⟩
    · -- distance_and_user_vehicle_times
      rename_i heq
      rw [heq] at hm
      cases hv : cfg.vot with
      | none => rw [hv] at hm; simp at hm
      | some v => exact ⟨_, rfl⟩
    · -- sys_time_and_detour_time
      rename_i heq
      rw [heq] at hm
      cases hdtw : cfg.dtw with
      | none => rw [hdtw] at hm; simp at hm
      | some dtw => exact ⟨_, rfl⟩
    · exact ⟨_, rfl⟩
    · exact ⟨_, rfl⟩
    · -- unknown key, excluded by membership in the catalog
      exfalso
      simp only [VALID_FUNC_KEYS, List.mem_cons, List.not_mem_nil,
        or_false] at hkey
      rcases hkey with h | h | h | h | h | h | h | h | h | h | h | h | h | h <;>
        simp_all

/-- Witness for C3: the unrecognized id "fastest_route" fails the build,
and `distance_and_user_times_man_SoD` with `vot` and `dc` present but `fr`
absent fails with the missing key `fr`. -/
theorem build_time_config_failures_witness :
    return_pooling_objective_function cfg3
      = .error (.unknownKey "fastest_route") ∧
    return_pooling_objective_function cfg3b
      = .error (.missingField "fr") :=
  ⟨build_time_config_failures.1 cfg3 (by decide),
   build_time_config_failures.2.1 cfg3b "fr" rfl⟩

/-! ### Claim C10: an explicit `arw` override is used verbatim -/

/-- C10: for `distance_and_user_times_man`, a configured `arw` value becomes
the per-request reward verbatim — no power-of-ten rounding — while with
`arw` absent the reward is the rounded ceiling
`10^⌈log10(MAX_DISTANCE·dc + MAX_DELAY·vot)⌉`. -/
theorem man_reward_override :
    (∀ (cfg : VrControlFuncDict) (vot dc w : ℚ),
      cfg.func_key = "distance_and_user_times_man" → cfg.vot = some vot →
      cfg.dc = some dc → cfg.arw = some w →
      return_pooling_objective_function cfg
        = .ok (.distance_and_user_times_man vot dc w (cfg.irs.getD true)
            cfg.p_reassign)) ∧
    (∀ (cfg : VrControlFuncDict) (vot dc : ℚ),
      cfg.func_key = "distance_and_user_times_man" → cfg.vot = some vot →
      cfg.dc = some dc → cfg.arw = none →
      return_pooling_objective_function cfg
        = .ok (.distance_and_user_times_man vot dc
            (pow10ceil (MAX_DISTANCE * dc + MAX_DELAY * vot))
            (cfg.irs.getD true) cfg.p_reassign)) := by
  constructor
  · intro cfg vot dc w hk hv hd ha
    unfold return_pooling_objective_function
    rw [hk, hv, hd, ha]
    rfl
  · intro cfg vot dc hk hv hd ha
    unfold return_pooling_objective_function
    rw [hk, hv, hd, ha]
    rfl

/-- Witness for C10: an override of 7 — not a power of ten — is kept as the
reward constant exactly. -/
theorem man_reward_override_witness :
    return_pooling_objective_function cfg10
      = .ok (.distance_and_user_times_man 1 1 7 true none) :=
  man_reward_override.1 cfg10 1 1 7 rfl rfl rfl rfl

/-! ### Claim C4: the reward is the rounded ceiling, fixed at build time -/

/-- For every configuration whose reward is derived from the ceilings (not
fixed, not overridden), the built closure's captured reward constant is
exactly `pow10ceil` of that ceiling. -/
lemma build_reward_of_ceiling (cfg : VrControlFuncDict)
    (co : CompiledObjective) (x : ℚ)
    (hb : return_pooling_objective_function cfg = .ok co)
    (hc : derivedCeiling cfg = some x) :
    rewardOf co = some (pow10ceil x) := by
  unfold return_pooling_objective_function at hb
  unfold derivedCeiling at hc
  split at hb
  · rename_i heq
    rw [heq] at hc; simp at hc
    simp only [Except.ok.injEq] at hb
    subst hb; subst hc; rfl
  · rename_i heq
    rw [heq] at hc; simp at hc
    simp only [Except.ok.injEq] at hb
    subst hb; subst hc; rfl
  · rename_i heq
    rw [heq] at hc; simp at hc
    simp only [Except.ok.injEq] at hb
    subst hb; subst hc; rfl
  · rename_i heq
    rw [heq] at hc; simp at hc
    simp only [Except.ok.injEq] at hb
    subst hb; subst hc; rfl
  · -- system_and_user_time
    rename_i heq
    rw [heq] at hc; simp at hc
    cases huw : cfg.uw with
    | none => rw [huw] at hb; exact absurd hb (by simp)
    | some uw =>
        rw [huw] at hb
        simp only [Except.ok.injEq] at hb
        subst hb; subst hc; rfl
  · -- distance_and_user_times
    rename_i heq
    rw [heq] at hc
    cases hvot : cfg.vot with
    | none => rw [hvot] at hb; exact absurd hb (by simp)
    | some vot =>
        rw [hvot] at hb; rw [hvot] at hc
        simp at hc
        simp only [Except.ok.injEq] at hb
        subst hb; subst hc; rfl
  · -- distance_and_user_times_man: the ceiling exists only without arw
    rename_i heq
    rw [heq] at hc
    cases harw : cfg.arw with
    | some w => rw [harw] at hc; simp at hc
    | none =>
        rw [harw] at hc
        cases hvot : cfg.vot with
        | none => rw [hvot] at hb; exact absurd hb (by simp)
        | some vot =>
            cases hdc : cfg.dc with
            | none => rw [hvot, hdc] at hb; exact absurd hb (by simp)
            | some dc =>
                rw [hvot, hdc] at hb; rw [hvot, hdc] at hc
                rw [harw] at hb
                simp at hc
                simp only [Except.ok.injEq] at hb
                subst hb; subst hc; rfl
  · -- distance_and_user_times_man_with_reservation
    rename_i heq
    rw [heq] at hc
    cases hvot : cfg.vot with
    | none => rw [hvot] at hb; exact absurd hb (by simp)
    | some vot =>
        cases hdc : cfg.dc with
        | none => rw [hvot, hdc] at hb; exact absurd hb (by simp)
        | some dc =>
            rw [hvot, hdc] at hb; rw [hvot, hdc] at hc
            simp at hc
            simp only [Except.ok.injEq] at hb
            subst hb; subst hc; rfl
  · -- distance_and_user_times_man_SoD: no derived ceiling
    rename_i heq
    rw [heq] at hc; simp at hc
  · -- distance_and_user_times_with_walk
    rename_i heq
    rw [heq] at hc
    cases hvot : cfg.vot with
    | none => rw [hvot] at hb; exact absurd hb (by simp)
    | some vot =>
        rw [hvot] at hb; rw [hvot] at hc
        simp at hc
        simp only [Except.ok.injEq] at hb
        subst hb; subst hc; rfl
  · -- distance_and_user_vehicle_times
    rename_i heq
    rw [heq] at hc
    cases hvot : cfg.vot with
    | none => rw [hvot] at hb; exact absurd hb (by simp)
    | some vot =>
        rw [hvot] at hb; rw [hvot] at hc
        simp at hc
        simp only [Except.ok.injEq] at hb
        subst hb; subst hc; rfl
  · -- sys_time_and_detour_time
    rename_i heq
    rw [heq] at hc; simp at hc
    cases hdtw : cfg.dtw with
    | none => rw [hdtw] at hb; exact absurd hb (by simp)
    | some dtw =>
        rw [hdtw] at hb
        simp only [Except.ok.injEq] at hb
        subst hb; subst hc; rfl
  · -- IRS_study_standard
    rename_i heq
    rw [heq] at hc; simp at hc
  · -- soft_time_windows
    rename_i heq
    rw [heq] at hc; simp at hc
  · -- unknown key
    exact absurd hb (by simp)

/-- C4: whenever the strategy's reward is derived from the configured
ceilings (and not fixed or explicitly overridden), the per-request reward
captured at build time is `10^⌈log10(ceiling)⌉`: a power of ten, at least
the ceiling, and no larger than any power of ten that is at least the
ceiling — the smallest power of ten ≥ the ceiling.  Being a constructor
argument of `CompiledObjective`, it is fixed at build time and `control_f`
only reads it. -/
theorem reward_is_least_pow10_ge_ceiling (cfg : VrControlFuncDict)
    (co : CompiledObjective) (x : ℚ)
    (hb : return_pooling_objective_function cfg = .ok co)
    (hc : derivedCeiling cfg = some x) (hx : 0 < x) :
    ∃ r, rewardOf co = some r ∧ x ≤ r ∧ (∃ k : ℤ, r = (10 : ℚ) ^ k) ∧
      ∀ j : ℤ, x ≤ (10 : ℚ) ^ j → r ≤ (10 : ℚ) ^ j := by
  refine ⟨pow10ceil x, build_reward_of_ceiling cfg co x hb hc,
    le_pow10ceil x, ⟨Int.clog 10 x, rfl⟩, fun j hj => pow10ceil_min hx hj⟩

/-- Witness for C4: the `total_distance` build; its ceiling `MAX_DISTANCE`
is positive and the captured reward is the least power of ten above it. -/
theorem reward_is_least_pow10_ge_ceiling_witness :
    ∃ r, rewardOf (.total_distance (pow10ceil MAX_DISTANCE)) = some r ∧
      MAX_DISTANCE ≤ r ∧ (∃ k : ℤ, r = (10 : ℚ) ^ k) ∧
      ∀ j : ℤ, MAX_DISTANCE ≤ (10 : ℚ) ^ j → r ≤ (10 : ℚ) ^ j :=
  reward_is_least_pow10_ge_ceiling cfg7
    (.total_distance (pow10ceil MAX_DISTANCE)) MAX_DISTANCE rfl rfl
    (by norm_num [MAX_DISTANCE])

/-! ### Claim C2: unresolved arrival times give an adverse score, no error -/

/-- C2: for `distance_and_user_vehicle_times`, a plan containing a stop with
an unresolved planned arrival time evaluates without error to a finite
score in which the assignment reward has been forced to
`-(number of served requests) · LARGE_INT`; with at least one served
request (the case in which the normal reward is positive) that score is
strictly larger — worse — than the same cost terms minus the normal
positive reward. -/
theorem unresolved_arrival_adverse_score (vot reward_per_rq : ℚ)
    (simulation_time : ℚ) (veh_obj : SimulationVehicle)
    (veh_plan : VehiclePlan) (rq_dict : RqDict)
    (routing_engine : RoutingEngine)
    (hrpr : reward_per_rq
      = pow10ceil (MAX_DISTANCE * MAX_BASE_DISTANCE_COST + MAX_DELAY * vot))
    (hunres : ∃ ps ∈ veh_plan.list_plan_stops, ps.planned_arrival = none)
    (hserved : 1 ≤ veh_plan.pax_info.length) :
    control_f (.distance_and_user_vehicle_times vot reward_per_rq)
        simulation_time veh_obj veh_plan rq_dict routing_engine
      = .ok ((legSum routing_engine (fun c => c.dist) trueSel veh_obj.pos
              veh_plan.list_plan_stops * veh_obj.distance_cost
            + (sumUserTimes rq_dict veh_plan.pax_info
                + (veh_plan.list_plan_stops.map vehWaitAt).sum) * vot)
          + (veh_plan.pax_info.length : ℚ) * LARGE_INT) ∧
    (legSum routing_engine (fun c => c.dist) trueSel veh_obj.pos
          veh_plan.list_plan_stops * veh_obj.distance_cost
        + (sumUserTimes rq_dict veh_plan.pax_info
            + (veh_plan.list_plan_stops.map vehWaitAt).sum) * vot)
      - (veh_plan.pax_info.length : ℚ) * reward_per_rq
    < (legSum routing_engine (fun c => c.dist) trueSel veh_obj.pos
          veh_plan.list_plan_stops * veh_obj.distance_cost
        + (sumUserTimes rq_dict veh_plan.pax_info
            + (veh_plan.list_plan_stops.map vehWaitAt).sum) * vot)
      + (veh_plan.pax_info.length : ℚ) * LARGE_INT := by
  have hany : veh_plan.list_plan_stops.any
      (fun ps => ps.planned_arrival.isNone) = true := by
    rcases hunres with ⟨ps, hmem, hnone⟩
    exact List.any_eq_true.mpr ⟨ps, hmem, by rw [hnone]; rfl⟩
  constructor
  · simp only [control_f, hany, if_true]
    congr 1
    ring
  · have hlen : (1 : ℚ) ≤ (veh_plan.pax_info.length : ℚ) := by
      exact_mod_cast hserved
    have hrp : 0 < reward_per_rq := hrpr ▸ pow10ceil_pos _
    have hL : (0 : ℚ) < LARGE_INT := by norm_num [LARGE_INT]
    nlinarith

/-- Witness for C2: a one-stop plan with an unresolved arrival and one
served request. -/
theorem unresolved_arrival_adverse_score_witness :
    control_f (.distance_and_user_vehicle_times 1
        (pow10ceil (MAX_DISTANCE * MAX_BASE_DISTANCE_COST + MAX_DELAY * 1))) 0
        veh2 plan2 rq7 router2
      = .ok ((legSum router2 (fun c => c.dist) trueSel veh2.pos
              plan2.list_plan_stops * veh2.distance_cost
            + (sumUserTimes rq7 plan2.pax_info
                + (plan2.list_plan_stops.map vehWaitAt).sum) * 1)
          + (plan2.pax_info.length : ℚ) * LARGE_INT) ∧
    (legSum router2 (fun c => c.dist) trueSel veh2.pos
          plan2.list_plan_stops * veh2.distance_cost
        + (sumUserTimes rq7 plan2.pax_info
            + (plan2.list_plan_stops.map vehWaitAt).sum) * 1)
      - (plan2.pax_info.length : ℚ)
          * pow10ceil (MAX_DISTANCE * MAX_BASE_DISTANCE_COST + MAX_DELAY * 1)
    < (legSum router2 (fun c => c.dist) trueSel veh2.pos
          plan2.list_plan_stops * veh2.distance_cost
        + (sumUserTimes rq7 plan2.pax_info
            + (plan2.list_plan_stops.map vehWaitAt).sum) * 1)
      + (plan2.pax_info.length : ℚ) * LARGE_INT :=
  unresolved_arrival_adverse_score 1 _ 0 veh2 plan2 rq7 router2 rfl
    ⟨⟨1, none, none, false, false, [], []⟩, by simp [plan2], rfl⟩
    (by simp [plan2])

/-! ### Claim C8: irswt end-time approximation for a locked-end last stop -/

/-- C8: for `total_system_time` with the ignore-repositioning-wait flag, a
non-empty plan whose last stop is locked-end is timed by the previous
stop's planned arrival plus a fresh routing travel time to the last stop —
or, for a single-stop plan, by `now` plus the travel time from the vehicle's
current position — and the score is that end time minus `now` minus the
assignment reward. -/
theorem tst_irswt_locked_end_approx (reward_per_rq simulation_time : ℚ)
    (veh_obj : SimulationVehicle) (stops : List PlanStop)
    (pax : List PaxEntry) (rq_dict : RqDict)
    (routing_engine : RoutingEngine) (lastS : PlanStop)
    (hlast : stops.getLast? = some lastS) (hlock : lastS.locked_end = true) :
    (∀ prevS t, stops.dropLast.getLast? = some prevS →
      prevS.planned_arrival = some t →
      control_f (.total_system_time true reward_per_rq) simulation_time
          veh_obj ⟨stops, pax⟩ rq_dict routing_engine
        = .ok (t + (routing_engine prevS.pos lastS.pos).tt - simulation_time
            - (pax.length : ℚ) * reward_per_rq)) ∧
    (stops.dropLast.getLast? = none →
      control_f (.total_system_time true reward_per_rq) simulation_time
          veh_obj ⟨stops, pax⟩ rq_dict routing_engine
        = .ok (simulation_time + (routing_engine veh_obj.pos lastS.pos).tt
            - simulation_time - (pax.length : ℚ) * reward_per_rq)) := by
  constructor
  · intro prevS t hprev harr
    simp only [control_f, tst_end_time, hlast, hprev, harr, hlock, true_and,
      if_true]
  · intro hprev
    simp only [control_f, tst_end_time, hlast, hprev, hlock, true_and,
      if_true]

/-- Witness for C8: a two-stop plan whose locked-end last stop is timed via
the previous stop plus a fresh routing query. -/
theorem tst_irswt_locked_end_approx_witness :
    (∀ prevS t, plan8stops.dropLast.getLast? = some prevS →
      prevS.planned_arrival = some t →
      control_f (.total_system_time true 100000) 0 veh2 ⟨plan8stops, []⟩ rq7
          router8
        = .ok (t + (router8 prevS.pos
            (⟨4, none, none, true, false, [], []⟩ : PlanStop).pos).tt - 0
            - (([] : List PaxEntry).length : ℚ) * 100000)) ∧
    (plan8stops.dropLast.getLast? = none →
      control_f (.total_system_time true 100000) 0 veh2 ⟨plan8stops, []⟩ rq7
          router8
        = .ok (0 + (router8 veh2.pos
            (⟨4, none, none, true, false, [], []⟩ : PlanStop).pos).tt - 0
            - (([] : List PaxEntry).length : ℚ) * 100000)) :=
  tst_irswt_locked_end_approx 100000 0 veh2 plan8stops [] rq7 router8
    ⟨4, none, none, true, false, [], []⟩ (by simp [plan8stops]) rfl

/-! ### Claim C1: reward dominance -/

/-- C1 (amended): for the strategies whose per-request reward is the
build-time power-of-ten ceiling of the very cost terms the plan sums —
`total_distance`, `total_system_time` (either flag), `user_times`,
`total_travel_times` and `distance_and_user_times` — two plans identical
except that the first serves one more request, whose user-time term is
within the delay ceiling (and, for `distance_and_user_times`, a nonnegative
value of time), score strictly in favour of the plan serving more:
`score(P1) < score(P2)`. -/
theorem reward_dominance_ceiling_strategies :
    (∀ (simulation_time : ℚ) (veh_obj : SimulationVehicle)
       (stops : List PlanStop) (e : PaxEntry) (pax : List PaxEntry)
       (rq_dict : RqDict) (routing_engine : RoutingEngine) (s1 s2 : ℚ),
      control_f (.total_distance (pow10ceil MAX_DISTANCE)) simulation_time
          veh_obj ⟨stops, e :: pax⟩ rq_dict routing_engine = .ok s1 →
      control_f (.total_distance (pow10ceil MAX_DISTANCE)) simulation_time
          veh_obj ⟨stops, pax⟩ rq_dict routing_engine = .ok s2 →
      s1 < s2) ∧
    (∀ (b : Bool) (simulation_time : ℚ) (veh_obj : SimulationVehicle)
       (stops : List PlanStop) (e : PaxEntry) (pax : List PaxEntry)
       (rq_dict : RqDict) (routing_engine : RoutingEngine) (s1 s2 : ℚ),
      control_f (.total_system_time b (pow10ceil (MAX_DELAY * 10)))
          simulation_time veh_obj ⟨stops, e :: pax⟩ rq_dict routing_engine
        = .ok s1 →
      control_f (.total_system_time b (pow10ceil (MAX_DELAY * 10)))
          simulation_time veh_obj ⟨stops, pax⟩ rq_dict routing_engine
        = .ok s2 →
      s1 < s2) ∧
    (∀ (simulation_time : ℚ) (veh_obj : SimulationVehicle)
       (stops : List PlanStop) (e : PaxEntry) (pax : List PaxEntry)
       (rq_dict : RqDict) (routing_engine : RoutingEngine) (s1 s2 : ℚ),
      e.deboard - (rq_dict e.rid).rq_time ≤ MAX_DELAY →
      control_f (.user_times (pow10ceil MAX_DELAY)) simulation_time veh_obj
          ⟨stops, e :: pax⟩ rq_dict routing_engine = .ok s1 →
      control_f (.user_times (pow10ceil MAX_DELAY)) simulation_time veh_obj
          ⟨stops, pax⟩ rq_dict routing_engine = .ok s2 →
      s1 < s2) ∧
    (∀ (simulation_time : ℚ) (veh_obj : SimulationVehicle)
       (stops : List PlanStop) (e : PaxEntry) (pax : List PaxEntry)
       (rq_dict : RqDict) (routing_engine : RoutingEngine) (s1 s2 : ℚ),
      control_f (.total_travel_times (pow10ceil (MAX_DELAY * 10)))
          simulation_time veh_obj ⟨stops, e :: pax⟩ rq_dict routing_engine
        = .ok s1 →
      control_f (.total_travel_times (pow10ceil (MAX_DELAY * 10)))
          simulation_time veh_obj ⟨stops, pax⟩ rq_dict routing_engine
        = .ok s2 →
      s1 < s2) ∧
    (∀ (vot simulation_time : ℚ) (veh_obj : SimulationVehicle)
       (stops : List PlanStop) (e : PaxEntry) (pax : List PaxEntry)
       (rq_dict : RqDict) (routing_engine : RoutingEngine) (s1 s2 : ℚ),
      0 ≤ vot →
      e.deboard - (rq_dict e.rid).rq_time ≤ MAX_DELAY →
      control_f (.distance_and_user_times vot
          (pow10ceil (MAX_DISTANCE * MAX_BASE_DISTANCE_COST + MAX_DELAY * vot)))
          simulation_time veh_obj ⟨stops, e :: pax⟩ rq_dict routing_engine
        = .ok s1 →
      control_f (.distance_and_user_times vot
          (pow10ceil (MAX_DISTANCE * MAX_BASE_DISTANCE_COST + MAX_DELAY * vot)))
          simulation_time veh_obj ⟨stops, pax⟩ rq_dict routing_engine
        = .ok s2 →
      s1 < s2) := by
  refine ⟨?_, ?_, ?_, ?_, ?_⟩
  · intro simulation_time veh_obj stops e pax rq_dict routing_engine s1 s2 h1 h2
    simp only [control_f, Except.ok.injEq] at h1 h2
    subst h1; subst h2
    have hp := pow10ceil_pos MAX_DISTANCE
    simp only [List.length_cons]
    push_cast
    nlinarith
  · intro b simulation_time veh_obj stops e pax rq_dict routing_engine s1 s2
      h1 h2
    simp only [control_f] at h1 h2
    cases htst : tst_end_time b simulation_time veh_obj stops
        routing_engine with
    | error err => rw [htst] at h1; exact absurd h1 (by simp)
    | ok endT =>
        rw [htst] at h1 h2
        simp only [Except.ok.injEq] at h1 h2
        subst h1; subst h2
        have hp := pow10ceil_pos (MAX_DELAY * 10)
        simp only [List.length_cons]
        push_cast
        nlinarith
  · intro simulation_time veh_obj stops e pax rq_dict routing_engine s1 s2 hd
      h1 h2
    simp only [control_f, Except.ok.injEq] at h1 h2
    subst h1; subst h2
    have h4 : pow10ceil MAX_DELAY = 10000 := pow10ceil_MAX_DELAY
    have h5 : MAX_DELAY = 7200 := by norm_num [MAX_DELAY]
    simp only [sumUserTimes, List.map_cons, List.sum_cons, List.length_cons]
    push_cast
    rw [h4]
    rw [h5] at hd
    linarith
  · intro simulation_time veh_obj stops e pax rq_dict routing_engine s1 s2 h1 h2
    simp only [control_f, Except.ok.injEq] at h1 h2
    subst h1; subst h2
    have hp := pow10ceil_pos (MAX_DELAY * 10)
    simp only [List.length_cons]
    push_cast
    nlinarith
  · intro vot simulation_time veh_obj stops e pax rq_dict routing_engine s1 s2
      hvot hd h1 h2
    simp only [control_f, Except.ok.injEq] at h1 h2
    subst h1; subst h2
    have hple := le_pow10ceil (MAX_DISTANCE * MAX_BASE_DISTANCE_COST
      + MAX_DELAY * vot)
    have h5 : MAX_DISTANCE * MAX_BASE_DISTANCE_COST = 10000 := by
      norm_num [MAX_DISTANCE, MAX_BASE_DISTANCE_COST]
    have h6 : MAX_DELAY = 7200 := by norm_num [MAX_DELAY]
    have h7 : (e.deboard - (rq_dict e.rid).rq_time) * vot ≤ MAX_DELAY * vot :=
      mul_le_mul_of_nonneg_right hd hvot
    simp only [sumUserTimes, List.map_cons, List.sum_cons, List.length_cons]
    push_cast
    nlinarith

/-- Witness for C1 (amended): `total_distance`, empty route, one extra
served request. -/
theorem reward_dominance_ceiling_strategies_witness :
    (-(pow10ceil MAX_DISTANCE) : ℚ) < 0 :=
  reward_dominance_ceiling_strategies.1 0 veh2 [] ⟨1, 0, 0⟩ [] rq7 router2
    (-(pow10ceil MAX_DISTANCE)) 0
    (by norm_num [control_f, legSum]) (by norm_num [control_f, legSum])

/-- Counterexample to C1 as frozen: with every cost term inside the
configured ceilings (route distance 0 ≤ `MAX_DISTANCE`, the extra request's
user time 7200 ≤ `MAX_DELAY`), the catalog strategies whose reward is not
derived from the ceilings break the dominance: `..._man_SoD` (fixed
`LARGE_INT` reward, here with value-of-time 1000) and `..._man` with an
explicit `arw = 1` override both score the plan serving one request more
strictly worse. -/
theorem reward_dominance_counterexample :
    ((7200 : ℚ) - (rq7 1).rq_time ≤ MAX_DELAY ∧
     control_f (.distance_and_user_times_man_SoD 1000 0 0) 0 veh2
        ⟨[], [⟨1, 0, 7200⟩]⟩ rq7 router2 = .ok 6200000 ∧
     control_f (.distance_and_user_times_man_SoD 1000 0 0) 0 veh2
        ⟨[], []⟩ rq7 router2 = .ok 0 ∧
     ¬ ((6200000 : ℚ) < 0)) ∧
    (control_f (.distance_and_user_times_man 1 1 1 true none) 0 veh2
        ⟨[], [⟨1, 0, 7200⟩]⟩ rq7 router2 = .ok 7199 ∧
     control_f (.distance_and_user_times_man 1 1 1 true none) 0 veh2
        ⟨[], []⟩ rq7 router2 = .ok 0 ∧
     ¬ ((7199 : ℚ) < 0)) := by
  refine ⟨⟨?_, ?_, ?_, by norm_num⟩, ?_, ?_, by norm_num⟩ <;>
    norm_num [control_f, legSum, sumUserTimes, reassignCount, rq7, veh2,
      MAX_DELAY, LARGE_INT]

/-! ### Claim C5: oracle calls only at position changes -/

/-- C5 (amended): for every strategy except `total_system_time` with the
ignore-repositioning-wait flag, every routing-oracle query has distinct
origin and destination, the number of queries is bounded by the number of
position changes along the plan starting from the vehicle's current
position, and evaluation depends on the oracle only through its values at
those queries. -/
theorem oracle_calls_distinct_and_bounded (co : CompiledObjective)
    (veh_obj : SimulationVehicle) (veh_plan : VehiclePlan)
    (h : usesEndQuery co = false) :
    (∀ c ∈ oracleCalls co veh_obj veh_plan, c.1 ≠ c.2) ∧
    (oracleCalls co veh_obj veh_plan).length
      ≤ posChanges veh_obj.pos (veh_plan.list_plan_stops.map PlanStop.pos) ∧
    (∀ r1 r2 : RoutingEngine,
      (∀ c ∈ oracleCalls co veh_obj veh_plan, r1 c.1 c.2 = r2 c.1 c.2) →
      ∀ (simulation_time : ℚ) (rq_dict : RqDict),
        control_f co simulation_time veh_obj veh_plan rq_dict r1
          = control_f co simulation_time veh_obj veh_plan rq_dict r2) := by
  cases co with
  | total_system_time b r =>
      have hb : b = false := h
      subst hb
      refine ⟨?_, ?_, ?_⟩
      · intro c hc; simp [oracleCalls] at hc
      · simp [oracleCalls]
      · intro r1 r2 hr simulation_time rq_dict
        simp only [control_f]
        have htst : tst_end_time false simulation_time veh_obj
              veh_plan.list_plan_stops r1
            = tst_end_time false simulation_time veh_obj
              veh_plan.list_plan_stops r2 := by
          unfold tst_end_time
          cases veh_plan.list_plan_stops.getLast? with
          | none => rfl
          | some lastS => simp
        rw [htst]
  | user_times r =>
      exact ⟨fun c hc => by simp [oracleCalls] at hc, by simp [oracleCalls],
        fun r1 r2 hr simulation_time rq_dict => rfl⟩
  | system_and_user_time uw r =>
      exact ⟨fun c hc => by simp [oracleCalls] at hc, by simp [oracleCalls],
        fun r1 r2 hr simulation_time rq_dict => rfl⟩
  | sys_time_and_detour_time dtw r =>
      exact ⟨fun c hc => by simp [oracleCalls] at hc, by simp [oracleCalls],
        fun r1 r2 hr simulation_time rq_dict => rfl⟩
  | total_distance r =>
      refine ⟨legCalls_ne _ _ _, legCalls_length_le_posChanges _ _ _, ?_⟩
      intro r1 r2 hr simulation_time rq_dict
      simp only [control_f]
      rw [legSum_congr _ _ r1 r2 _ _ hr]
  | total_travel_times r =>
      refine ⟨legCalls_ne _ _ _, legCalls_length_le_posChanges _ _ _, ?_⟩
      intro r1 r2 hr simulation_time rq_dict
      simp only [control_f]
      rw [legSum_congr _ _ r1 r2 _ _ hr]
  | distance_and_user_times vot r =>
      refine ⟨legCalls_ne _ _ _, legCalls_length_le_posChanges _ _ _, ?_⟩
      intro r1 r2 hr simulation_time rq_dict
      simp only [control_f]
      rw [legSum_congr _ _ r1 r2 _ _ hr]
  | distance_and_user_times_man vot dc r irs p =>
      refine ⟨legCalls_ne _ _ _,
        le_trans (legCalls_length_le_posChanges _ _ _)
          (posChanges_takeWhile_le _ _ _), ?_⟩
      intro r1 r2 hr simulation_time rq_dict
      simp only [control_f]
      rw [legSum_congr _ _ r1 r2 _ _ hr]
  | distance_and_user_times_man_with_reservation vot dc rrw r irs iuch =>
      refine ⟨legCalls_ne _ _ _,
        le_trans (legCalls_length_le_posChanges _ _ _)
          (posChanges_takeWhile_le _ _ _), ?_⟩
      intro r1 r2 hr simulation_time rq_dict
      simp only [control_f]
      rw [legSum_congr _ _ r1 r2 _ _ hr]
  | distance_and_user_times_man_SoD vot dc fr =>
      refine ⟨legCalls_ne _ _ _, legCalls_length_le_posChanges _ _ _, ?_⟩
      intro r1 r2 hr simulation_time rq_dict
      simp only [control_f]
      rw [legSum_congr _ _ r1 r2 _ _ hr]
  | distance_and_user_times_with_walk vot r =>
      refine ⟨legCalls_ne _ _ _, legCalls_length_le_posChanges _ _ _, ?_⟩
      intro r1 r2 hr simulation_time rq_dict
      simp only [control_f]
      rw [legSum_congr _ _ r1 r2 _ _ hr]
  | distance_and_user_vehicle_times vot r =>
      refine ⟨legCalls_ne _ _ _, legCalls_length_le_posChanges _ _ _, ?_⟩
      intro r1 r2 hr simulation_time rq_dict
      simp only [control_f]
      rw [legSum_congr _ _ r1 r2 _ _ hr]
  | IRS_study_standard =>
      refine ⟨legCalls_ne _ _ _, legCalls_length_le_posChanges _ _ _, ?_⟩
      intro r1 r2 hr simulation_time rq_dict
      simp only [control_f]
      rw [legSum_congr _ _ r1 r2 _ _ hr]
  | soft_time_windows =>
      refine ⟨legCalls_ne _ _ _, legCalls_length_le_posChanges _ _ _, ?_⟩
      intro r1 r2 hr simulation_time rq_dict
      simp only [control_f]
      rw [legSum_congr _ _ r1 r2 _ _ hr]

/-- Witness for C5 (amended): the `total_distance` strategy on the C7 plan. -/
theorem oracle_calls_distinct_and_bounded_witness :
    (∀ c ∈ oracleCalls (.total_distance 100000) veh7 plan7, c.1 ≠ c.2) ∧
    (oracleCalls (.total_distance 100000) veh7 plan7).length
      ≤ posChanges veh7.pos (plan7.list_plan_stops.map PlanStop.pos) ∧
    (∀ r1 r2 : RoutingEngine,
      (∀ c ∈ oracleCalls (.total_distance 100000) veh7 plan7,
        r1 c.1 c.2 = r2 c.1 c.2) →
      ∀ (simulation_time : ℚ) (rq_dict : RqDict),
        control_f (.total_distance 100000) simulation_time veh7 plan7 rq_dict
            r1
          = control_f (.total_distance 100000) simulation_time veh7 plan7
              rq_dict r2) :=
  oracle_calls_distinct_and_bounded (.total_distance 100000) veh7 plan7 rfl

/-- Counterexample to C5 as frozen: `total_system_time` with the
ignore-repositioning-wait flag issues, for a single locked-end stop at the
vehicle's own position, one end-time query whose origin equals its
destination, exceeding the zero position changes of the plan. -/
theorem oracle_calls_counterexample :
    oracleCalls (.total_system_time true 100000) veh5 plan5 = [(5, 5)] ∧
    ¬ ((oracleCalls (.total_system_time true 100000) veh5 plan5).length
        ≤ posChanges veh5.pos (plan5.list_plan_stops.map PlanStop.pos)) := by
  constructor <;> simp [oracleCalls, posChanges, plan5, veh5]

end FleetPy
